import Mathlib

/-
Verification of the pi0-integration control core of the lerobot repository.

The embedding below translates the pure numeric core of
`pi0-integration/robot_interface.py` and `pi0-integration/motor_control.py`
into Lean: machine floats become exact rationals, numpy elementwise
operations over the fixed length-5 range arrays become `List.zipWith`
over the same constant lists, Python exceptions (IndexError from list
indexing, ZeroDivisionError from `1.0 / hz`) become an `Except PyError`
result, and the hardware robot object becomes an explicit structure whose
per-arm `write` call is a boolean-valued function (the Python code wraps
each arm's writes in a broad try/except, so the only observable per-arm
outcome is success or failure).
-/

namespace LeRobot

/-- Python exceptions that the modelled code can raise. -/
inductive PyError where
  | indexError
  | zeroDivisionError
deriving Repr, DecidableEq

/-- `JOINT_POSITION_RANGES["min"]` of robot_interface.py, identical to
`JOINT_ACTION_RANGES["min"]` of motor_control.py. -/
def JOINT_RANGES_min : List ℚ := [-1, -1, -200, -200, -10]

/-- `JOINT_POSITION_RANGES["max"]` of robot_interface.py, identical to
`JOINT_ACTION_RANGES["max"]` of motor_control.py. -/
def JOINT_RANGES_max : List ℚ := [1, 200, 10, 10, 10]

/-- `GRIPPER_POSITION_RANGES` / `GRIPPER_ACTION_RANGES`: min 0.0, max 50.0. -/
def GRIPPER_min : ℚ := 0

def GRIPPER_max : ℚ := 50

/-- `np.clip(x, lo, hi)` on scalars (for `lo ≤ hi`). -/
def clip (x lo hi : ℚ) : ℚ := min (max x lo) hi

/-- One channel of `normalize_joint_position` / `normalize_gripper_position`:
`2.0 * (clipped - min) / (max - min) - 1.0` after clipping. -/
def normChan (x lo hi : ℚ) : ℚ := 2 * (clip x lo hi - lo) / (hi - lo) - 1

/-- `normalize_joint_position` (robot_interface.py): clip elementwise to the
configured joint ranges, then min-max normalize to [-1, 1]. -/
def normalize_joint_position (joint_position : List ℚ) : List ℚ :=
  List.zipWith (fun x p => normChan x p.1 p.2) joint_position
    (JOINT_RANGES_min.zip JOINT_RANGES_max)

/-- `normalize_gripper_position` (robot_interface.py): clip the scalar
`gripper_position[0]` to the gripper range, normalize, return as a
one-element array. -/
def normalize_gripper_position (gripper_position : List ℚ) : List ℚ :=
  [normChan (gripper_position.getD 0 0) GRIPPER_min GRIPPER_max]

/-- One channel of the denormalization: `0.5 * (x + 1.0) * (max - min) + min`. -/
def denormChan (x lo hi : ℚ) : ℚ := 1/2 * (x + 1) * (hi - lo) + lo

/-- `denormalize_joint_actions` (motor_control.py): elementwise
`0.5 * (normalized + 1.0) * (max - min) + min` over the joint ranges. -/
def denormalize_joint_actions (normalized_actions : List ℚ) : List ℚ :=
  List.zipWith (fun x p => denormChan x p.1 p.2) normalized_actions
    (JOINT_RANGES_min.zip JOINT_RANGES_max)

/-- `denormalize_gripper_action` (motor_control.py): scalar
denormalization through the gripper range [0, 50]. -/
def denormalize_gripper_action (normalized_action : ℚ) : ℚ :=
  denormChan normalized_action GRIPPER_min GRIPPER_max

/-- Python list/array indexing `xs[i]` for nonnegative `i`: raises
IndexError when out of bounds. -/
def pyIndex (xs : List ℚ) (i : Nat) : Except PyError ℚ :=
  match xs.get? i with
  | some v => Except.ok v
  | none => Except.error PyError.indexError

/-- `map_pi0_to_so100_actions` (motor_control.py):
take the first 5 values as arm joints (`pi0_action[:5]`), take the gripper
value from index 6 when `len(pi0_action) > 6` else from index 5,
denormalize both, and assemble the 6-element SO100 command. -/
def map_pi0_to_so100_actions (pi0_action : List ℚ) : Except PyError (List ℚ) := do
  let normalized_arm_joints := pi0_action.take 5
  let normalized_gripper ←
    if 6 < pi0_action.length then pyIndex pi0_action 6 else pyIndex pi0_action 5
  let denormalized_arm_joints := denormalize_joint_actions normalized_arm_joints
  let denormalized_gripper := denormalize_gripper_action normalized_gripper
  return denormalized_arm_joints ++ [denormalized_gripper]

/-- One follower arm: its motor count and the observable outcome of
attempting the per-motor `write("Goal_Position", ...)` loop for a given
positions vector. The Python code wraps that loop in `try/except
Exception`, so the only observable per-arm outcome is success (`true`)
or a caught failure (`false`). -/
structure Arm where
  numMotors : Nat
  write : List ℚ → Bool

/-- The robot as seen by motor_control.py: its ordered follower arms. -/
structure Robot where
  follower_arms : List Arm

/-- A completed write of a mapped positions vector to one follower arm
(identified by its index in `follower_arms`). -/
structure WriteEvent where
  armIdx : Nat
  positions : List ℚ
deriving Repr, DecidableEq

/-- The per-arm loop of `apply_single_action` (lines 100-109 of
motor_control.py). Both branches of the loop body `return` on the first
iteration (`return True` is inside the `for name in robot.follower_arms`
loop), so arms after the first are never visited; an empty arm list
falls through and Python returns `None`. Result: the write events
performed and the Python return value (`some b` for `True`/`False`,
`none` for `None`). -/
def sendToArms (arms : List Arm) (idx : Nat) (positions : List ℚ) :
    List WriteEvent × Option Bool :=
  match arms with
  | [] => ([], none)
  | arm :: _ =>
      if arm.write positions then ([⟨idx, positions⟩], some true)
      else ([], some false)

/-- `apply_single_action` (motor_control.py): detect the motor count from
the first arm when `num_motors is None`, return `False` when the count
equals 0, map the raw step (which can raise IndexError), then send the
mapped positions to the follower arms. -/
def apply_single_action (robot : Robot) (action_step : List ℚ)
    (num_motors : Option Nat) :
    Except PyError (List WriteEvent × Option Bool) := do
  let num_motors :=
    match num_motors with
    | some n => some n
    | none => robot.follower_arms.head?.map Arm.numMotors
  if num_motors = some 0 then
    return ([], some false)
  let positions_array ← map_pi0_to_so100_actions action_step
  return sendToArms robot.follower_arms 0 positions_array

/-- Observable terminal outcome of a trajectory execution: the spec's
`Completed` / `StepFailed k` states. -/
inductive TrajOutcome where
  | Completed
  | StepFailed (k : Nat)
deriving Repr, DecidableEq

/-- The step loop of `apply_trajectory` (lines 137-160 of
motor_control.py), from step index `i`: apply each step in order and
`break` (outcome `StepFailed`) as soon as a step's result is not truthy
(`True`). Returns the executed step indices, the accumulated write
events, and the outcome. Exceptions from `apply_single_action`
propagate. -/
def runSteps (robot : Robot) (num_motors : Nat) :
    List (List ℚ) → Nat → Except PyError (List Nat × List WriteEvent × TrajOutcome)
  | [], _ => Except.ok ([], [], TrajOutcome.Completed)
  | action_step :: rest, i => do
      let (ws, success) ← apply_single_action robot action_step (some num_motors)
      if success = some true then
        let (is, ws2, outcome) ← runSteps robot num_motors rest (i + 1)
        return (i :: is, ws ++ ws2, outcome)
      else
        return ([i], ws, TrajOutcome.StepFailed i)

/-- The motor-count detection loop of `apply_trajectory` (lines 127-131
of motor_control.py): `num_motors = 0`, overwritten from the first
follower arm, so 0 when there is no arm. -/
def detectedMotors (robot : Robot) : Nat :=
  (robot.follower_arms.head?.map Arm.numMotors).getD 0

/-- `apply_trajectory` (motor_control.py): return at once on an empty
trajectory; detect the motor count from the first arm (0 when there is
none); compute `step_duration = 1.0 / hz`, which raises
ZeroDivisionError when `hz = 0`; then run the step loop. There is no
validation of `hz`: a negative frequency only makes the pacing sleep
`max(0, step_duration - elapsed)` collapse to 0. -/
def apply_trajectory (robot : Robot) (actions_array : List (List ℚ)) (hz : ℚ) :
    Except PyError (List Nat × List WriteEvent × TrajOutcome) :=
  if actions_array.length = 0 then Except.ok ([], [], TrajOutcome.Completed)
  else
    if hz = 0 then Except.error PyError.zeroDivisionError
    else runSteps robot (detectedMotors robot) actions_array 0

/-- `apply_robot_action` (motor_control.py): `action` models the Pi0
response, `none` when the `actions` key is absent, `some arr` otherwise.
Missing key and empty trajectory both return before any execution. -/
def apply_robot_action (robot : Robot) (action : Option (List (List ℚ)))
    (hz : ℚ) : Except PyError (List Nat × List WriteEvent × TrajOutcome) :=
  match action with
  | none => Except.ok ([], [], TrajOutcome.Completed)
  | some actions_array =>
      if actions_array.length = 0 then Except.ok ([], [], TrajOutcome.Completed)
      else apply_trajectory robot actions_array hz

/-- The observable "write succeeded" outcome of one step: the Python
`apply_single_action` returns `True`. -/
def stepSucceeds (robot : Robot) (m : Nat) (step : List ℚ) : Prop :=
  ∃ ws, apply_single_action robot step (some m) = Except.ok (ws, some true)

/-- The observable "write failed" outcome of one step: the Python
`apply_single_action` returns normally with a non-truthy value
(`False`, or `None` when there is no follower arm). -/
def stepFails (robot : Robot) (m : Nat) (step : List ℚ) : Prop :=
  ∃ ws b, apply_single_action robot step (some m) = Except.ok (ws, b) ∧
    b ≠ some true

/-! ### Helper lemmas -/

theorem clip_of_mem (x lo hi : ℚ) (h1 : lo ≤ x) (h2 : x ≤ hi) : clip x lo hi = x := by
  unfold clip
  rw [max_eq_left h1, min_eq_left h2]

theorem clip_le (x lo hi : ℚ) : clip x lo hi ≤ hi := min_le_right _ _

theorem le_clip (x lo hi : ℚ) (h : lo ≤ hi) : lo ≤ clip x lo hi :=
  le_min (le_max_right x lo) h

theorem normChan_mem (x lo hi : ℚ) (h : lo < hi) :
    -1 ≤ normChan x lo hi ∧ normChan x lo hi ≤ 1 := by
  have hd : 0 < hi - lo := by linarith
  have hlc : lo ≤ clip x lo hi := le_clip x lo hi h.le
  have hch : clip x lo hi ≤ hi := clip_le x lo hi
  unfold normChan
  constructor
  · have hnn : 0 ≤ 2 * (clip x lo hi - lo) / (hi - lo) :=
      div_nonneg (by linarith) hd.le
    linarith
  · have hle : 2 * (clip x lo hi - lo) / (hi - lo) ≤ 2 := by
      rw [div_le_iff₀ hd]
      linarith
    linarith

theorem normChan_below (x lo hi : ℚ) (h : lo < hi) (hx : x < lo) :
    normChan x lo hi = -1 := by
  unfold normChan clip
  rw [max_eq_right hx.le, min_eq_left h.le]
  simp

theorem normChan_above (x lo hi : ℚ) (h : lo < hi) (hx : hi < x) :
    normChan x lo hi = 1 := by
  have hd : hi - lo ≠ 0 := by intro h0; linarith
  unfold normChan clip
  rw [max_eq_left (by linarith), min_eq_right hx.le]
  field_simp
  norm_num

theorem denormChan_normChan (x lo hi : ℚ) (h : lo < hi) (h1 : lo ≤ x)
    (h2 : x ≤ hi) : denormChan (normChan x lo hi) lo hi = x := by
  have hd : hi - lo ≠ 0 := by intro h0; linarith
  unfold denormChan normChan
  rw [clip_of_mem x lo hi h1 h2]
  field_simp

theorem denormChan_mem_iff (x lo hi : ℚ) (h : lo < hi) :
    (lo ≤ denormChan x lo hi ∧ denormChan x lo hi ≤ hi) ↔
      (-1 ≤ x ∧ x ≤ 1) := by
  have hd : 0 < hi - lo := by linarith
  unfold denormChan
  constructor
  · rintro ⟨ha, hb⟩
    constructor
    · nlinarith
    · nlinarith
  · rintro ⟨ha, hb⟩
    constructor
    · nlinarith
    · nlinarith

theorem getD_zipWith_ranges (f : ℚ → ℚ → ℚ → ℚ) (xs : List ℚ) (i : Nat)
    (h : i < (List.zipWith (fun x p => f x p.1 p.2) xs
      (JOINT_RANGES_min.zip JOINT_RANGES_max)).length) :
    (List.zipWith (fun x p => f x p.1 p.2) xs
        (JOINT_RANGES_min.zip JOINT_RANGES_max)).getD i 0
      = f (xs.getD i 0) (JOINT_RANGES_min.getD i 0)
          (JOINT_RANGES_max.getD i 0) := by
  have hlen : i < xs.length ∧ i < 5 := by
    rw [List.length_zipWith] at h
    simp [JOINT_RANGES_min, JOINT_RANGES_max] at h
    omega
  obtain ⟨hx, h5⟩ := hlen
  have hz : i < (JOINT_RANGES_min.zip JOINT_RANGES_max).length := by
    simp [JOINT_RANGES_min, JOINT_RANGES_max]
    omega
  have hmin : i < JOINT_RANGES_min.length := by
    simp [JOINT_RANGES_min]; omega
  have hmax : i < JOINT_RANGES_max.length := by
    simp [JOINT_RANGES_max]; omega
  rw [List.getD_eq_getElem?_getD, List.getElem?_eq_getElem h,
    List.getD_eq_getElem?_getD, List.getElem?_eq_getElem hx,
    List.getD_eq_getElem?_getD, List.getElem?_eq_getElem hmin,
    List.getD_eq_getElem?_getD, List.getElem?_eq_getElem hmax]
  simp only [Option.getD_some]
  rw [List.getElem_zipWith, List.getElem_zip]

theorem map_short (step : List ℚ) (h : step.length < 6) :
    map_pi0_to_so100_actions step = Except.error PyError.indexError := by
  unfold map_pi0_to_so100_actions pyIndex
  have h6 : ¬ (6 < step.length) := by omega
  have h5 : step.get? 5 = none := List.get?_eq_none.mpr (by omega)
  rw [List.get?_eq_getElem?] at h5
  simp [h6, h5, Bind.bind, Except.bind, Pure.pure, Except.pure]

theorem apply_single_action_short (robot : Robot) (step : List ℚ) (m : Nat)
    (hlen : step.length < 6) (hm : m ≠ 0) :
    apply_single_action robot step (some m) = Except.error PyError.indexError := by
  unfold apply_single_action
  have hm' : ¬ ((some m : Option Nat) = some 0) := by simpa using hm
  simp [hm', map_short step hlen, Bind.bind, Except.bind, Pure.pure, Except.pure]

theorem runSteps_stepFailed (robot : Robot) (m : Nat) (steps : List (List ℚ)) :
    ∀ (k i : Nat), k < steps.length →
    (∀ j s, j < k → steps.get? j = some s → stepSucceeds robot m s) →
    (∀ s, steps.get? k = some s → stepFails robot m s) →
    ∃ ws, runSteps robot m steps i =
      Except.ok (List.range' i (k + 1), ws, TrajOutcome.StepFailed (i + k)) := by
  induction steps with
  | nil =>
      intro k i hk _ _
      simp at hk
  | cons step rest ih =>
      intro k i hk hgood hbad
      match k with
      | 0 =>
          obtain ⟨ws, b, heq, hne⟩ := hbad step rfl
          refine ⟨ws, ?_⟩
          unfold runSteps
          rw [heq]
          simp [Bind.bind, Except.bind, Pure.pure, Except.pure, hne,
            List.range'_succ]
      | Nat.succ k' =>
          obtain ⟨ws, heq⟩ := hgood 0 step (Nat.succ_pos k') rfl
          obtain ⟨ws2, ih2⟩ := ih k' (i + 1) (by simpa using hk)
            (fun j s hj hs => hgood (j + 1) s (by omega) (by simpa using hs))
            (fun s hs => hbad s (by simpa using hs))
          refine ⟨ws ++ ws2, ?_⟩
          unfold runSteps
          rw [heq]
          simp only [Bind.bind, Except.bind, ih2]
          have hr : List.range' i (k' + 1 + 1) = i :: List.range' (i + 1) (k' + 1) :=
            List.range'_succ ..
          have hi : i + (k' + 1) = i + 1 + k' := by omega
          simp [hr, hi, Pure.pure, Except.pure]

/-! ### Concrete fixtures -/

/-- A follower arm with the SO100's 6 motors whose writes always succeed. -/
def okArm : Arm := ⟨6, fun _ => true⟩

/-- A robot with a single always-succeeding follower arm. -/
def okRobot : Robot := ⟨[okArm]⟩

/-- A robot with two always-succeeding follower arms. -/
def twoArmRobot : Robot := ⟨[okArm, okArm]⟩

/-- The all-zero length-6 raw action step. -/
def zeroStep : List ℚ := [0, 0, 0, 0, 0, 0]

/-- The SO100 command the all-zero step maps to: mid-range joints and
mid-range gripper. -/
def zeroCmd : List ℚ := [0, 199/2, -95, -95, 0, 25]

/-! ### Claim theorems -/

/-- C2, counterexample: with frequency -1 (non-positive) and a one-step
trajectory, `apply_trajectory` executes the step and completes — the
call is not rejected, so a trajectory step is executed with a
non-positive frequency. -/
theorem negative_hz_executes_steps :
    (-1 : ℚ) < 0 ∧
    apply_trajectory okRobot [zeroStep] (-1) =
      Except.ok ([0], [⟨0, zeroCmd⟩], TrajOutcome.Completed) := by
  refine ⟨by norm_num, ?_⟩
  norm_num [apply_trajectory, runSteps, apply_single_action,
    map_pi0_to_so100_actions, pyIndex, denormalize_joint_actions,
    denormalize_gripper_action, denormChan, JOINT_RANGES_min,
    JOINT_RANGES_max, GRIPPER_min, GRIPPER_max, detectedMotors, okRobot,
    okArm, zeroStep, zeroCmd, sendToArms, Bind.bind, Except.bind,
    Pure.pure, Except.pure]

/-- C2, amended: `apply_trajectory` performs no frequency validation.
The only frequency that prevents step execution is `hz = 0`, and it
does so by an uncaught ZeroDivisionError raised while computing
`step_duration = 1.0 / hz` (after the empty-trajectory check), not by a
configuration-error rejection; negative frequencies are not rejected
and their steps execute (their pacing sleep collapses to zero). -/
theorem apply_trajectory_zero_hz (robot : Robot) (steps : List (List ℚ))
    (h : steps ≠ []) :
    apply_trajectory robot steps 0 = Except.error PyError.zeroDivisionError := by
  unfold apply_trajectory
  simp [List.length_eq_zero, h]

/-- Witness for `apply_trajectory_zero_hz` at a concrete nonempty
trajectory. -/
theorem apply_trajectory_zero_hz_witness :
    ([zeroStep] : List (List ℚ)) ≠ [] ∧
    apply_trajectory okRobot [zeroStep] 0 =
      Except.error PyError.zeroDivisionError :=
  ⟨List.cons_ne_nil _ _,
    apply_trajectory_zero_hz okRobot [zeroStep] (List.cons_ne_nil _ _)⟩

/-- C3, counterexample: a 5-element raw step (shorter than the 6
required channels) makes the IndexError raised at the gripper-index
lookup escape both `apply_single_action` and `apply_trajectory`
uncaught, instead of producing a reported step failure and a
`StepFailed` transition. -/
theorem short_step_exception_escapes :
    apply_single_action okRobot [0, 0, 0, 0, 0] (some 6) =
      Except.error PyError.indexError ∧
    apply_trajectory okRobot [[0, 0, 0, 0, 0]] 20 =
      Except.error PyError.indexError :=
  ⟨rfl, rfl⟩

/-- C3, amended: for every raw step with fewer than 6 elements, a
nonzero detected motor count and a nonzero frequency, executing the
step raises IndexError (from the gripper-index lookup in
`map_pi0_to_so100_actions`) and the exception propagates out of the
Trajectory Executor as a language-level fault; the step is not
surfaced as a failed-write `StepFailed` outcome. -/
theorem short_step_raises (robot : Robot) (step : List ℚ)
    (rest : List (List ℚ)) (hz : ℚ) (hlen : step.length < 6)
    (hm : detectedMotors robot ≠ 0) (hhz : hz ≠ 0) :
    apply_trajectory robot (step :: rest) hz =
      Except.error PyError.indexError := by
  unfold apply_trajectory
  simp only [List.length_cons, Nat.succ_ne_zero, if_false, hhz, if_neg]
  unfold runSteps
  rw [apply_single_action_short robot step _ hlen hm]
  simp [Bind.bind, Except.bind]

/-- Witness for `short_step_raises` at a concrete 5-element step. -/
theorem short_step_raises_witness :
    ([0, 0, 0, 0, (0 : ℚ)] : List ℚ).length < 6 ∧
    detectedMotors okRobot ≠ 0 ∧ (20 : ℚ) ≠ 0 ∧
    apply_trajectory okRobot [[0, 0, 0, 0, 0]] 20 =
      Except.error PyError.indexError :=
  ⟨by norm_num, by decide, by norm_num,
    short_step_raises okRobot [0, 0, 0, 0, 0] [] 20 (by norm_num)
      (by decide) (by norm_num)⟩

/-- C4, code_bug evidence: with two follower arms configured and all
writes succeeding, `apply_single_action` writes the mapped positions
only to arm 0 and returns True — the `return True` sits inside the
per-arm loop, so the second arm never receives the step's positions,
contradicting the code's own "Send to each follower arm" comment. -/
theorem two_arm_robot_single_write :
    twoArmRobot.follower_arms.length = 2 ∧
    apply_single_action twoArmRobot zeroStep (some 6) =
      Except.ok ([⟨0, zeroCmd⟩], some true) := by
  refine ⟨rfl, ?_⟩
  norm_num [apply_single_action, map_pi0_to_so100_actions, pyIndex,
    denormalize_joint_actions, denormalize_gripper_action, denormChan,
    JOINT_RANGES_min, JOINT_RANGES_max, GRIPPER_min, GRIPPER_max,
    twoArmRobot, okArm, zeroStep, zeroCmd, sendToArms, Bind.bind,
    Except.bind, Pure.pure, Except.pure]

/-- C5, counterexample: on raw joint state [0, 100, -50, 0, 0] the
first component the State Normalizer produces is 0 (raw 0 sits at the
middle of the first joint's range [-1, 1]), not the -1.0 the claim's
expected vector demands. -/
theorem normalize_example_first_component :
    (normalize_joint_position [0, 100, -50, 0, 0]).getD 0 0 ≠ -1 := by
  norm_num [normalize_joint_position, normChan, clip,
    JOINT_RANGES_min, JOINT_RANGES_max]

/-- C5, amended: on raw state [0, 100, -50, 0, 0] with gripper 25 and
the configured ranges, the code's exact normalized joint vector is
[0, 1/201, 3/7, 19/21, 0] (≈ [0.0, 0.00498, 0.42857, 0.90476, 0.0])
and the normalized gripper is [0]. -/
theorem normalize_example_exact :
    normalize_joint_position [0, 100, -50, 0, 0] = [0, 1/201, 3/7, 19/21, 0] ∧
    normalize_gripper_position [25] = [0] := by
  constructor <;>
    norm_num [normalize_joint_position, normalize_gripper_position,
      normChan, clip, JOINT_RANGES_min, JOINT_RANGES_max,
      GRIPPER_min, GRIPPER_max]

/-- C8: an ActionResponse without the `actions` key, and one with an
empty trajectory, both make `apply_robot_action` return a completed
no-op: no step executed, no actuator write performed, no error
raised — for every robot and every frequency (including 0, since both
returns happen before the step-duration division). -/
theorem apply_robot_action_noop (robot : Robot) (hz : ℚ) :
    apply_robot_action robot none hz =
      Except.ok ([], [], TrajOutcome.Completed) ∧
    apply_robot_action robot (some []) hz =
      Except.ok ([], [], TrajOutcome.Completed) :=
  ⟨rfl, rfl⟩

/-- C1: for every raw policy action vector with at least 6 elements,
`map_pi0_to_so100_actions` succeeds with a 6-element command whose
channels 0-4 are the first 5 raw values denormalized through the
per-joint ranges ([-1,1], [-1,200], [-200,10], [-200,10], [-10,10]),
and whose channel 5 is the gripper value — raw index 6 when the vector
has more than 6 elements, raw index 5 otherwise — denormalized through
the gripper-specific range [0, 50]. -/
theorem map_action_channels (a : List ℚ) (h : 6 ≤ a.length) :
    ∃ out, map_pi0_to_so100_actions a = Except.ok out ∧
      out.length = 6 ∧
      out.getD 0 0 = 1/2 * (a.getD 0 0 + 1) * (1 - (-1)) + (-1) ∧
      out.getD 1 0 = 1/2 * (a.getD 1 0 + 1) * (200 - (-1)) + (-1) ∧
      out.getD 2 0 = 1/2 * (a.getD 2 0 + 1) * (10 - (-200)) + (-200) ∧
      out.getD 3 0 = 1/2 * (a.getD 3 0 + 1) * (10 - (-200)) + (-200) ∧
      out.getD 4 0 = 1/2 * (a.getD 4 0 + 1) * (10 - (-10)) + (-10) ∧
      out.getD 5 0 =
        1/2 * ((if 6 < a.length then a.getD 6 0 else a.getD 5 0) + 1) *
          (50 - 0) + 0 := by
  rcases a with _ | ⟨a0, _ | ⟨a1, _ | ⟨a2, _ | ⟨a3, _ | ⟨a4, _ | ⟨a5, rest⟩⟩⟩⟩⟩⟩
  · exact absurd h (by simp)
  · exact absurd h (by simp)
  · exact absurd h (by simp)
  · exact absurd h (by simp)
  · exact absurd h (by simp)
  · exact absurd h (by simp)
  cases rest with
  | nil =>
      have hmap : map_pi0_to_so100_actions [a0, a1, a2, a3, a4, a5] =
          Except.ok [denormChan a0 (-1) 1, denormChan a1 (-1) 200,
            denormChan a2 (-200) 10, denormChan a3 (-200) 10,
            denormChan a4 (-10) 10, denormChan a5 0 50] := by
        simp [map_pi0_to_so100_actions, pyIndex, denormalize_joint_actions,
          denormalize_gripper_action, JOINT_RANGES_min, JOINT_RANGES_max,
          GRIPPER_min, GRIPPER_max, Bind.bind, Except.bind,
          Pure.pure, Except.pure]
      refine ⟨_, hmap, ?_⟩
      norm_num [denormChan]
  | cons a6 rest =>
      have h7 : 6 < (a0 :: a1 :: a2 :: a3 :: a4 :: a5 :: a6 :: rest).length := by
        simp
      have hmap : map_pi0_to_so100_actions
            (a0 :: a1 :: a2 :: a3 :: a4 :: a5 :: a6 :: rest) =
          Except.ok [denormChan a0 (-1) 1, denormChan a1 (-1) 200,
            denormChan a2 (-200) 10, denormChan a3 (-200) 10,
            denormChan a4 (-10) 10, denormChan a6 0 50] := by
        simp [map_pi0_to_so100_actions, pyIndex, h7,
          denormalize_joint_actions, denormalize_gripper_action,
          JOINT_RANGES_min, JOINT_RANGES_max, GRIPPER_min, GRIPPER_max,
          Bind.bind, Except.bind, Pure.pure, Except.pure]
      refine ⟨_, hmap, ?_⟩
      norm_num [denormChan, h7]

/-- Witness for `map_action_channels` at the concrete 7-element vector
[0, 0, 0, 0, 0, 0, 1]. -/
theorem map_action_channels_witness :
    6 ≤ ([0, 0, 0, 0, 0, 0, (1 : ℚ)] : List ℚ).length ∧
    ∃ out, map_pi0_to_so100_actions [0, 0, 0, 0, 0, 0, 1] = Except.ok out ∧
      out.length = 6 ∧
      out.getD 0 0 = 1/2 * (([0, 0, 0, 0, 0, 0, (1 : ℚ)] : List ℚ).getD 0 0 + 1) * (1 - (-1)) + (-1) ∧
      out.getD 1 0 = 1/2 * (([0, 0, 0, 0, 0, 0, (1 : ℚ)] : List ℚ).getD 1 0 + 1) * (200 - (-1)) + (-1) ∧
      out.getD 2 0 = 1/2 * (([0, 0, 0, 0, 0, 0, (1 : ℚ)] : List ℚ).getD 2 0 + 1) * (10 - (-200)) + (-200) ∧
      out.getD 3 0 = 1/2 * (([0, 0, 0, 0, 0, 0, (1 : ℚ)] : List ℚ).getD 3 0 + 1) * (10 - (-200)) + (-200) ∧
      out.getD 4 0 = 1/2 * (([0, 0, 0, 0, 0, 0, (1 : ℚ)] : List ℚ).getD 4 0 + 1) * (10 - (-10)) + (-10) ∧
      out.getD 5 0 =
        1/2 * ((if 6 < ([0, 0, 0, 0, 0, 0, (1 : ℚ)] : List ℚ).length
            then ([0, 0, 0, 0, 0, 0, (1 : ℚ)] : List ℚ).getD 6 0
            else ([0, 0, 0, 0, 0, 0, (1 : ℚ)] : List ℚ).getD 5 0) + 1) *
          (50 - 0) + 0 :=
  ⟨by norm_num, map_action_channels [0, 0, 0, 0, 0, 0, 1] (by norm_num)⟩

/-- C6: for raw joint values inside their configured per-joint ranges
and a gripper value inside [0, 50], denormalizing the normalized state
gives back the raw state exactly (the model uses exact rational
arithmetic, so "within floating-point tolerance" holds as equality). -/
theorem denormalize_normalize_roundtrip (x0 x1 x2 x3 x4 g : ℚ)
    (h0 : -1 ≤ x0 ∧ x0 ≤ 1) (h1 : -1 ≤ x1 ∧ x1 ≤ 200)
    (h2 : -200 ≤ x2 ∧ x2 ≤ 10) (h3 : -200 ≤ x3 ∧ x3 ≤ 10)
    (h4 : -10 ≤ x4 ∧ x4 ≤ 10) (hg : 0 ≤ g ∧ g ≤ 50) :
    denormalize_joint_actions (normalize_joint_position [x0, x1, x2, x3, x4]) =
      [x0, x1, x2, x3, x4] ∧
    denormalize_gripper_action ((normalize_gripper_position [g]).getD 0 0) = g := by
  constructor
  · simp only [normalize_joint_position, denormalize_joint_actions,
      JOINT_RANGES_min, JOINT_RANGES_max, List.zip_cons_cons,
      List.zip_nil_right, List.zip_nil_left, List.zipWith_cons_cons,
      List.zipWith_nil_right, List.zipWith_nil_left]
    simp only [List.cons.injEq, and_true]
    exact ⟨denormChan_normChan _ _ _ (by norm_num) h0.1 h0.2,
      denormChan_normChan _ _ _ (by norm_num) h1.1 h1.2,
      denormChan_normChan _ _ _ (by norm_num) h2.1 h2.2,
      denormChan_normChan _ _ _ (by norm_num) h3.1 h3.2,
      denormChan_normChan _ _ _ (by norm_num) h4.1 h4.2⟩
  · simp only [normalize_gripper_position, denormalize_gripper_action,
      List.getD_cons_zero]
    exact denormChan_normChan _ _ _ (by norm_num [GRIPPER_min, GRIPPER_max])
      hg.1 hg.2

/-- Witness for `denormalize_normalize_roundtrip` at the concrete
in-range state [0, 100, -50, 0, 0] with gripper 25. -/
theorem denormalize_normalize_roundtrip_witness :
    ((-1 : ℚ) ≤ 0 ∧ (0 : ℚ) ≤ 1) ∧ ((-1 : ℚ) ≤ 100 ∧ (100 : ℚ) ≤ 200) ∧
    ((-200 : ℚ) ≤ -50 ∧ (-50 : ℚ) ≤ 10) ∧ ((-200 : ℚ) ≤ 0 ∧ (0 : ℚ) ≤ 10) ∧
    ((-10 : ℚ) ≤ 0 ∧ (0 : ℚ) ≤ 10) ∧ ((0 : ℚ) ≤ 25 ∧ (25 : ℚ) ≤ 50) ∧
    (denormalize_joint_actions (normalize_joint_position [0, 100, -50, 0, 0]) =
      [0, 100, -50, 0, 0] ∧
    denormalize_gripper_action ((normalize_gripper_position [25]).getD 0 0) = 25) :=
  ⟨⟨by norm_num, by norm_num⟩, ⟨by norm_num, by norm_num⟩,
    ⟨by norm_num, by norm_num⟩, ⟨by norm_num, by norm_num⟩,
    ⟨by norm_num, by norm_num⟩, ⟨by norm_num, by norm_num⟩,
    denormalize_normalize_roundtrip 0 100 (-50) 0 0 25
      ⟨by norm_num, by norm_num⟩ ⟨by norm_num, by norm_num⟩
      ⟨by norm_num, by norm_num⟩ ⟨by norm_num, by norm_num⟩
      ⟨by norm_num, by norm_num⟩ ⟨by norm_num, by norm_num⟩⟩

/-- C7: every component the State Normalizer outputs lies in [-1, 1],
for any input magnitude; a component strictly below its configured
minimum comes out exactly -1 and one strictly above its maximum comes
out exactly +1 — for the joint channels and for the gripper. -/
theorem normalize_range_and_clamp (xs : List ℚ) (i : Nat) (g : ℚ)
    (h : i < (normalize_joint_position xs).length) :
    (-1 ≤ (normalize_joint_position xs).getD i 0 ∧
      (normalize_joint_position xs).getD i 0 ≤ 1) ∧
    (xs.getD i 0 < JOINT_RANGES_min.getD i 0 →
      (normalize_joint_position xs).getD i 0 = -1) ∧
    (JOINT_RANGES_max.getD i 0 < xs.getD i 0 →
      (normalize_joint_position xs).getD i 0 = 1) ∧
    (-1 ≤ (normalize_gripper_position [g]).getD 0 0 ∧
      (normalize_gripper_position [g]).getD 0 0 ≤ 1) ∧
    (g < GRIPPER_min → (normalize_gripper_position [g]).getD 0 0 = -1) ∧
    (GRIPPER_max < g → (normalize_gripper_position [g]).getD 0 0 = 1) := by
  have h5 : i < 5 := by
    rw [normalize_joint_position, List.length_zipWith] at h
    simp [JOINT_RANGES_min, JOINT_RANGES_max] at h
    omega
  have hlohi : JOINT_RANGES_min.getD i 0 < JOINT_RANGES_max.getD i 0 := by
    interval_cases i <;> norm_num [JOINT_RANGES_min, JOINT_RANGES_max]
  have hget : (normalize_joint_position xs).getD i 0 =
      normChan (xs.getD i 0) (JOINT_RANGES_min.getD i 0)
        (JOINT_RANGES_max.getD i 0) :=
    getD_zipWith_ranges normChan xs i h
  have hgrip : (normalize_gripper_position [g]).getD 0 0 =
      normChan g GRIPPER_min GRIPPER_max := by
    simp [normalize_gripper_position]
  have hglohi : GRIPPER_min < GRIPPER_max := by
    norm_num [GRIPPER_min, GRIPPER_max]
  rw [hget, hgrip]
  exact ⟨normChan_mem _ _ _ hlohi,
    fun hb => normChan_below _ _ _ hlohi hb,
    fun ha => normChan_above _ _ _ hlohi ha,
    normChan_mem _ _ _ hglohi,
    fun hb => normChan_below _ _ _ hglohi hb,
    fun ha => normChan_above _ _ _ hglohi ha⟩

/-- Witness for `normalize_range_and_clamp` at input [-5, 0, 0, 0, 0]
(first joint below its minimum -1) with gripper input 60 (above 50). -/
theorem normalize_range_and_clamp_witness :
    0 < (normalize_joint_position [-5, 0, 0, 0, 0]).length ∧
    ((-1 ≤ (normalize_joint_position [-5, 0, 0, 0, 0]).getD 0 0 ∧
      (normalize_joint_position [-5, 0, 0, 0, 0]).getD 0 0 ≤ 1) ∧
    (([-5, 0, 0, 0, (0 : ℚ)] : List ℚ).getD 0 0 < JOINT_RANGES_min.getD 0 0 →
      (normalize_joint_position [-5, 0, 0, 0, 0]).getD 0 0 = -1) ∧
    (JOINT_RANGES_max.getD 0 0 < ([-5, 0, 0, 0, (0 : ℚ)] : List ℚ).getD 0 0 →
      (normalize_joint_position [-5, 0, 0, 0, 0]).getD 0 0 = 1) ∧
    (-1 ≤ (normalize_gripper_position [60]).getD 0 0 ∧
      (normalize_gripper_position [60]).getD 0 0 ≤ 1) ∧
    ((60 : ℚ) < GRIPPER_min → (normalize_gripper_position [60]).getD 0 0 = -1) ∧
    (GRIPPER_max < (60 : ℚ) → (normalize_gripper_position [60]).getD 0 0 = 1)) :=
  ⟨by norm_num [normalize_joint_position, JOINT_RANGES_min,
      JOINT_RANGES_max, List.length_zipWith],
    normalize_range_and_clamp [-5, 0, 0, 0, 0] 0 60
      (by norm_num [normalize_joint_position, JOINT_RANGES_min,
        JOINT_RANGES_max, List.length_zipWith])⟩

/-- C10: the denormalization functions clamp nothing: every output
component is exactly `0.5 * (x + 1) * (max - min) + min` for its
channel, and (for each joint channel and for the gripper) the output
lies inside the configured hardware range [min, max] if and only if
the input component lies inside [-1, 1]. -/
theorem denormalize_no_clamp (xs : List ℚ) (i : Nat) (g : ℚ)
    (h : i < (denormalize_joint_actions xs).length) :
    (denormalize_joint_actions xs).getD i 0 =
      1/2 * (xs.getD i 0 + 1) *
        (JOINT_RANGES_max.getD i 0 - JOINT_RANGES_min.getD i 0) +
        JOINT_RANGES_min.getD i 0 ∧
    ((JOINT_RANGES_min.getD i 0 ≤ (denormalize_joint_actions xs).getD i 0 ∧
      (denormalize_joint_actions xs).getD i 0 ≤ JOINT_RANGES_max.getD i 0) ↔
      (-1 ≤ xs.getD i 0 ∧ xs.getD i 0 ≤ 1)) ∧
    denormalize_gripper_action g = 1/2 * (g + 1) * (50 - 0) + 0 ∧
    ((GRIPPER_min ≤ denormalize_gripper_action g ∧
      denormalize_gripper_action g ≤ GRIPPER_max) ↔
      (-1 ≤ g ∧ g ≤ 1)) := by
  have h5 : i < 5 := by
    rw [denormalize_joint_actions, List.length_zipWith] at h
    simp [JOINT_RANGES_min, JOINT_RANGES_max] at h
    omega
  have hlohi : JOINT_RANGES_min.getD i 0 < JOINT_RANGES_max.getD i 0 := by
    interval_cases i <;> norm_num [JOINT_RANGES_min, JOINT_RANGES_max]
  have hget : (denormalize_joint_actions xs).getD i 0 =
      denormChan (xs.getD i 0) (JOINT_RANGES_min.getD i 0)
        (JOINT_RANGES_max.getD i 0) :=
    getD_zipWith_ranges denormChan xs i h
  have hglohi : GRIPPER_min < GRIPPER_max := by
    norm_num [GRIPPER_min, GRIPPER_max]
  rw [hget]
  refine ⟨rfl, denormChan_mem_iff _ _ _ hlohi, ?_, ?_⟩
  · norm_num [denormalize_gripper_action, denormChan,
      GRIPPER_min, GRIPPER_max]
  · exact denormChan_mem_iff _ _ _ hglohi

/-- Witness for `denormalize_no_clamp` at input [2, 0, 0, 0, 0]
(first component above 1) with gripper input 2. -/
theorem denormalize_no_clamp_witness :
    0 < (denormalize_joint_actions [2, 0, 0, 0, 0]).length ∧
    ((denormalize_joint_actions [2, 0, 0, 0, 0]).getD 0 0 =
      1/2 * (([2, 0, 0, 0, (0 : ℚ)] : List ℚ).getD 0 0 + 1) *
        (JOINT_RANGES_max.getD 0 0 - JOINT_RANGES_min.getD 0 0) +
        JOINT_RANGES_min.getD 0 0 ∧
    ((JOINT_RANGES_min.getD 0 0 ≤ (denormalize_joint_actions [2, 0, 0, 0, 0]).getD 0 0 ∧
      (denormalize_joint_actions [2, 0, 0, 0, 0]).getD 0 0 ≤ JOINT_RANGES_max.getD 0 0) ↔
      (-1 ≤ ([2, 0, 0, 0, (0 : ℚ)] : List ℚ).getD 0 0 ∧
        ([2, 0, 0, 0, (0 : ℚ)] : List ℚ).getD 0 0 ≤ 1)) ∧
    denormalize_gripper_action 2 = 1/2 * ((2 : ℚ) + 1) * (50 - 0) + 0 ∧
    ((GRIPPER_min ≤ denormalize_gripper_action 2 ∧
      denormalize_gripper_action 2 ≤ GRIPPER_max) ↔
      (-1 ≤ (2 : ℚ) ∧ (2 : ℚ) ≤ 1))) :=
  ⟨by norm_num [denormalize_joint_actions, JOINT_RANGES_min,
      JOINT_RANGES_max, List.length_zipWith],
    denormalize_no_clamp [2, 0, 0, 0, 0] 0 2
      (by norm_num [denormalize_joint_actions, JOINT_RANGES_min,
        JOINT_RANGES_max, List.length_zipWith])⟩

/-- C9: if steps before index k all report a successful write and the
step at index k reports a failed write, the Trajectory Executor
executes exactly steps 0..k (steps k+1..N-1 are never attempted) and
reports `StepFailed` at index k. -/
theorem trajectory_failure_short_circuit (robot : Robot)
    (steps : List (List ℚ)) (hz : ℚ) (k : Nat) (hhz : hz ≠ 0)
    (hk : k < steps.length)
    (hgood : ∀ j s, j < k → steps.get? j = some s →
      stepSucceeds robot (detectedMotors robot) s)
    (hbad : ∀ s, steps.get? k = some s →
      stepFails robot (detectedMotors robot) s) :
    ∃ ws, apply_trajectory robot steps hz =
      Except.ok (List.range (k + 1), ws, TrajOutcome.StepFailed k) := by
  obtain ⟨ws, hrun⟩ := runSteps_stepFailed robot (detectedMotors robot)
    steps k 0 hk hgood hbad
  refine ⟨ws, ?_⟩
  unfold apply_trajectory
  have hne : ¬ steps.length = 0 := by omega
  rw [if_neg hne, if_neg hhz, hrun, List.range_eq_range']
  simp

/-- An arm that accepts a write exactly when the commanded gripper
channel is 25 (the mid-range gripper command). -/
def pickyArm : Arm := ⟨6, fun p => p.getD 5 0 == 25⟩

/-- A robot with the single `pickyArm` follower arm. -/
def pickyRobot : Robot := ⟨[pickyArm]⟩

/-- A raw step whose gripper denormalizes to 50, which `pickyArm`
rejects. -/
def gripStep : List ℚ := [0, 0, 0, 0, 0, 1]

/-- Witness for `trajectory_failure_short_circuit`: a 3-step trajectory
whose middle step's write fails; exactly steps 0 and 1 execute and the
outcome is `StepFailed 1`. -/
theorem trajectory_failure_short_circuit_witness :
    (20 : ℚ) ≠ 0 ∧
    1 < ([zeroStep, gripStep, zeroStep] : List (List ℚ)).length ∧
    (∀ j s, j < 1 → ([zeroStep, gripStep, zeroStep] : List (List ℚ)).get? j = some s →
      stepSucceeds pickyRobot (detectedMotors pickyRobot) s) ∧
    (∀ s, ([zeroStep, gripStep, zeroStep] : List (List ℚ)).get? 1 = some s →
      stepFails pickyRobot (detectedMotors pickyRobot) s) ∧
    ∃ ws, apply_trajectory pickyRobot [zeroStep, gripStep, zeroStep] 20 =
      Except.ok (List.range 2, ws, TrajOutcome.StepFailed 1) := by
  have hgood : ∀ j s, j < 1 →
      ([zeroStep, gripStep, zeroStep] : List (List ℚ)).get? j = some s →
      stepSucceeds pickyRobot (detectedMotors pickyRobot) s := by
    intro j s hj hs
    interval_cases j
    simp only [List.get?_cons_zero, Option.some.injEq] at hs
    subst hs
    refine ⟨[⟨0, zeroCmd⟩], ?_⟩
    norm_num [apply_single_action, map_pi0_to_so100_actions, pyIndex,
      denormalize_joint_actions, denormalize_gripper_action, denormChan,
      JOINT_RANGES_min, JOINT_RANGES_max, GRIPPER_min, GRIPPER_max,
      pickyRobot, pickyArm, detectedMotors, zeroStep, zeroCmd, sendToArms,
      beq_iff_eq, Bind.bind, Except.bind, Pure.pure, Except.pure]
  have hbad : ∀ s,
      ([zeroStep, gripStep, zeroStep] : List (List ℚ)).get? 1 = some s →
      stepFails pickyRobot (detectedMotors pickyRobot) s := by
    intro s hs
    simp only [List.get?_cons_succ, List.get?_cons_zero,
      Option.some.injEq] at hs
    subst hs
    refine ⟨[], some false, ?_, by simp⟩
    norm_num [apply_single_action, map_pi0_to_so100_actions, pyIndex,
      denormalize_joint_actions, denormalize_gripper_action, denormChan,
      JOINT_RANGES_min, JOINT_RANGES_max, GRIPPER_min, GRIPPER_max,
      pickyRobot, pickyArm, detectedMotors, gripStep, sendToArms,
      beq_iff_eq, Bind.bind, Except.bind, Pure.pure, Except.pure]
  exact ⟨by norm_num, by norm_num, hgood, hbad,
    trajectory_failure_short_circuit pickyRobot [zeroStep, gripStep, zeroStep]
      20 1 (by norm_num) (by norm_num) hgood hbad⟩

end LeRobot
